import Mathlib

/-!
Shallow embedding of the weather CLI's core subsystem: the date normalizer
(`weather-providers/src/utils/date.rs`), the provider enumeration and
resolution layer (`weather-providers/src/lib.rs`,
`weather-cli/src/handlers/weather.rs`), the configuration store
(`weather_cli/src/common/config.rs`, `weather-cli/src/models/config.rs`)
and the alias handlers (`weather-cli/src/handlers/alias.rs`).

Conventions of the embedding:
* `chrono::Utc::now().date_naive()` is passed explicitly as a `today : Date`
  argument; everything else is pure.
* Rust `BTreeMap<String, _>` values are association lists kept sorted by key;
  well-formedness (`StrMapSorted`) is assumed in theorems that need it,
  following the structure of the Rust type's invariant.
* File-system effects are modelled at the value level: the config file is a
  `FileState`, a save either succeeds or fails with a message
  (`SaveOutcome`), and network / RPC calls are cut at the call boundary
  (`FetchCall`, `GrpcConnection`).
* `f32` temperatures are modelled as `Rat`; every concrete temperature in the
  modelled code is a small integral constant, exactly representable.
-/

deriving instance DecidableEq for Except

/-! ## Dates (chrono `NaiveDate` fragment) -/

/-- A proleptic Gregorian calendar date, as held by `chrono::NaiveDate`. -/
structure Date where
  year : Int
  month : Nat
  day : Nat
deriving DecidableEq, Repr

/-- Gregorian leap-year rule used by chrono. -/
def isLeapYear (y : Int) : Bool :=
  y % 4 == 0 && (y % 100 != 0 || y % 400 == 0)

/-- Number of days of month `m` of year `y`; `0` for an invalid month. -/
def daysInMonth (y : Int) (m : Nat) : Nat :=
  match m with
  | 1 => 31
  | 2 => if isLeapYear y then 29 else 28
  | 3 => 31
  | 4 => 30
  | 5 => 31
  | 6 => 30
  | 7 => 31
  | 8 => 31
  | 9 => 30
  | 10 => 31
  | 11 => 30
  | 12 => 31
  | _ => 0

/-- Smallest year representable by `chrono::NaiveDate`. -/
def chronoMinYear : Int := -262144

/-- Largest year representable by `chrono::NaiveDate`. -/
def chronoMaxYear : Int := 262143

/-- `NaiveDate::from_ymd_opt`: validity check for a (year, month, day) triple. -/
def fromYmd (y : Int) (m d : Nat) : Option Date :=
  if chronoMinYear ≤ y ∧ y ≤ chronoMaxYear ∧ 1 ≤ m ∧ m ≤ 12 ∧ 1 ≤ d ∧ d ≤ daysInMonth y m then
    some ⟨y, m, d⟩
  else
    none

/-- Left-pad the decimal rendering of `n` with zeros to width `w`. -/
def padZeros (w : Nat) (n : Nat) : String :=
  let s := toString n
  String.mk (List.replicate (w - s.length) '0') ++ s

/-- chrono's `%Y` formatting: zero-padded to 4 digits, `-` sign for negative
years, `+` sign for years of five or more digits. -/
def formatYear (y : Int) : String :=
  if y < 0 then "-" ++ padZeros 4 y.natAbs
  else if 10000 ≤ y then "+" ++ toString y.natAbs
  else padZeros 4 y.natAbs

/-- Render a date in ISO form, chrono's `date.format("%Y-%m-%d")`. -/
def Date.toIso (d : Date) : String :=
  formatYear d.year ++ "-" ++ padZeros 2 d.month ++ "-" ++ padZeros 2 d.day

/-! ## chrono format-string parsing (`NaiveDate::parse_from_str`) -/

/-- Drop leading whitespace, chrono's `trim_left` before numeric items. -/
def skipWs : List Char → List Char
  | [] => []
  | c :: cs => if c.isWhitespace then skipWs cs else c :: cs

/-- Take at most `max` leading decimal digits, stopping at the first
non-digit; returns the digits and the rest (chrono `scan::number`). -/
def takeDigits : Nat → List Char → List Char × List Char
  | 0, cs => ([], cs)
  | _ + 1, [] => ([], [])
  | n + 1, c :: cs =>
    if c.isDigit then
      let (ds, rest) := takeDigits n cs
      (c :: ds, rest)
    else
      ([], c :: cs)

/-- Decimal value of a digit list. -/
def digitsToNat (ds : List Char) : Nat :=
  ds.foldl (fun acc c => acc * 10 + (c.toNat - '0'.toNat)) 0

/-- chrono `scan::number(s, 1, maxWidth)`: at least one and at most
`maxWidth` digits. -/
def scanNumber (maxWidth : Nat) (cs : List Char) : Option (Nat × List Char) :=
  let (ds, rest) := takeDigits maxWidth cs
  if ds.isEmpty then none else some (digitsToNat ds, rest)

/-- chrono numeric `%Y` item: leading whitespace trimmed; an explicit sign
lifts the 4-digit width limit. -/
def scanYear (cs : List Char) : Option (Int × List Char) :=
  match skipWs cs with
  | '-' :: rest => (scanNumber rest.length rest).map fun p => (-(p.1 : Int), p.2)
  | '+' :: rest => (scanNumber rest.length rest).map fun p => ((p.1 : Int), p.2)
  | cs => (scanNumber 4 cs).map fun p => ((p.1 : Int), p.2)

/-- chrono numeric `%m` / `%d` item: leading whitespace trimmed, one or two
digits, no sign. -/
def scanNum2 (cs : List Char) : Option (Nat × List Char) :=
  scanNumber 2 (skipWs cs)

/-- ASCII lowercasing as performed byte-wise by chrono's month-name scanner. -/
def lowerAscii (c : Char) : Char :=
  if 'A' ≤ c ∧ c ≤ 'Z' then Char.ofNat (c.toNat + 32) else c

/-- Case-insensitive three-letter month abbreviation (chrono
`scan::short_month0`), 1-based month number. -/
def monthAbbrev (a b c : Char) : Option Nat :=
  match lowerAscii a, lowerAscii b, lowerAscii c with
  | 'j', 'a', 'n' => some 1
  | 'f', 'e', 'b' => some 2
  | 'm', 'a', 'r' => some 3
  | 'a', 'p', 'r' => some 4
  | 'm', 'a', 'y' => some 5
  | 'j', 'u', 'n' => some 6
  | 'j', 'u', 'l' => some 7
  | 'a', 'u', 'g' => some 8
  | 's', 'e', 'p' => some 9
  | 'o', 'c', 't' => some 10
  | 'n', 'o', 'v' => some 11
  | 'd', 'e', 'c' => some 12
  | _, _, _ => none

/-- `%b`: consume exactly three characters naming a month. -/
def scanShortMonth (cs : List Char) : Option (Nat × List Char) :=
  match cs with
  | a :: b :: c :: rest => (monthAbbrev a b c).map fun m => (m, rest)
  | _ => none

/-- One item of a chrono strftime format string, restricted to the items the
repository's `POSSIBLE_FORMATS` use. -/
inductive FmtItem where
  | lit (c : Char)
  | space
  | numYear
  | numMonth
  | numDay
  | shortMonthName
deriving DecidableEq, Repr

/-- Fields accumulated while parsing, chrono's `Parsed` fragment. -/
structure ParsedDate where
  year : Option Int := none
  month : Option Nat := none
  day : Option Nat := none
deriving DecidableEq, Repr

/-- Run one format item against the input. -/
def runItem (it : FmtItem) (p : ParsedDate) (cs : List Char) :
    Option (ParsedDate × List Char) :=
  match it with
  | .lit c =>
    match cs with
    | c' :: rest => if c' = c then some (p, rest) else none
    | [] => none
  | .space => some (p, skipWs cs)
  | .numYear => (scanYear cs).map fun q => ({ p with year := some q.1 }, q.2)
  | .numMonth => (scanNum2 cs).map fun q => ({ p with month := some q.1 }, q.2)
  | .numDay => (scanNum2 cs).map fun q => ({ p with day := some q.1 }, q.2)
  | .shortMonthName => (scanShortMonth cs).map fun q => ({ p with month := some q.1 }, q.2)

/-- Run a list of format items in sequence. -/
def runItems : List FmtItem → ParsedDate → List Char → Option (ParsedDate × List Char)
  | [], p, cs => some (p, cs)
  | it :: rest, p, cs =>
    match runItem it p cs with
    | some q => runItems rest q.1 q.2
    | none => none

/-- `NaiveDate::parse_from_str`: all items must match, the input must be fully
consumed, and the collected fields must form a valid date. -/
def parseFromStr (s : String) (items : List FmtItem) : Option Date :=
  match runItems items {} s.data with
  | some (p, []) =>
    match p.year, p.month, p.day with
    | some y, some m, some d => fromYmd y m d
    | _, _, _ => none
  | _ => none

/-- `"%Y-%m-%d"` -/
def fmtIso : List FmtItem := [.numYear, .lit '-', .numMonth, .lit '-', .numDay]

/-- `"%d.%m.%Y"` -/
def fmtDotted : List FmtItem := [.numDay, .lit '.', .numMonth, .lit '.', .numYear]

/-- `"%m/%d/%Y"` -/
def fmtUsSlash : List FmtItem := [.numMonth, .lit '/', .numDay, .lit '/', .numYear]

/-- `"%d-%m-%Y"` -/
def fmtHyphen : List FmtItem := [.numDay, .lit '-', .numMonth, .lit '-', .numYear]

/-- `"%d %b %Y"` -/
def fmtWrittenMonth : List FmtItem := [.numDay, .space, .shortMonthName, .space, .numYear]

/-- `"%Y/%m/%d"` -/
def fmtSlashYearFirst : List FmtItem := [.numYear, .lit '/', .numMonth, .lit '/', .numDay]

/-- The ordered candidate list `POSSIBLE_FORMATS` of `utils/date.rs`. -/
def POSSIBLE_FORMATS : List (List FmtItem) :=
  [fmtIso, fmtDotted, fmtUsSlash, fmtHyphen, fmtWrittenMonth, fmtSlashYearFirst]

/-- `parse_date_with_unknown_format`: first format that parses wins. -/
def parse_date_with_unknown_format (s : String) : Option Date :=
  POSSIBLE_FORMATS.findSome? (fun fmt => parseFromStr s fmt)

/-- `normalize_date`: parse if possible, else fall back to today (passed
explicitly in place of `Utc::now().date_naive()`), rendered in ISO form. -/
def normalize_date (dateStr : Option String) (today : Date) : String :=
  (((dateStr.bind parse_date_with_unknown_format).getD today)).toIso

example : normalize_date (some "10/5/2023") ⟨1999, 1, 1⟩ = "2023-10-05" := by decide
example : normalize_date (some "2023-10-05") ⟨1999, 1, 1⟩ = "2023-10-05" := by decide
example : normalize_date (some "05.10.2023") ⟨1999, 1, 1⟩ = "2023-10-05" := by decide
example : normalize_date (some "05-10-2023") ⟨1999, 1, 1⟩ = "2023-10-05" := by decide
example : normalize_date (some "5 Oct 2023") ⟨1999, 1, 1⟩ = "2023-10-05" := by decide
example : normalize_date (some "2023/10/05") ⟨1999, 1, 1⟩ = "2023-10-05" := by decide
example : normalize_date (some "not-a-date") ⟨1999, 1, 1⟩ = "1999-01-01" := by decide
example : normalize_date none ⟨1999, 1, 1⟩ = "1999-01-01" := by decide

/-! ## Provider enumeration (`weather-providers/src/lib.rs`) -/

/-- The closed enumeration of the four weather backends. -/
inductive Provider where
  | Mock
  | GrpcMock
  | OpenWeather
  | WeatherApi
deriving DecidableEq, Repr

/-- `Provider::is_mock`: true only for the pure offline mock. -/
def Provider.is_mock (p : Provider) : Bool :=
  match p with
  | .Mock => true
  | _ => false

/-- `Provider::id`: the short configuration / CLI token. -/
def Provider.id (p : Provider) : String :=
  match p with
  | .Mock => "mock"
  | .GrpcMock => "grpc"
  | .OpenWeather => "ow"
  | .WeatherApi => "wa"

/-- `Provider::name`: the display name. -/
def Provider.name (p : Provider) : String :=
  match p with
  | .Mock => "MockWeather"
  | .GrpcMock => "GrpcMockWeather"
  | .OpenWeather => "OpenWeather"
  | .WeatherApi => "WeatherApi"

/-- The listing of `Provider::value_variants()` rendered inside the
unknown-provider error message (declaration order). -/
def availableProvidersListing : String :=
  "'MockWeather' (mock), 'GrpcMockWeather' (grpc), 'OpenWeather' (ow), 'WeatherApi' (wa)"

/-- The `Unknown provider` error message of `TryFrom<&str> for Provider`. -/
def unknownProviderMsg (s : String) : String :=
  "Unknown provider: '" ++ s ++ "'.\nAvailable providers: " ++ availableProvidersListing

/-- `str::to_lowercase` on the ASCII fragment the provider tokens live in,
rebuilt over the character list so that it reduces in the kernel. -/
def strToLower (s : String) : String :=
  String.mk (s.data.map lowerAscii)

/-- `TryFrom<&str> for Provider`: case-insensitive match on id or name. -/
def Provider.tryFrom (s : String) : Except String Provider :=
  match strToLower s with
  | "mockweather" => .ok .Mock
  | "mock" => .ok .Mock
  | "grpcmockweather" => .ok .GrpcMock
  | "grpc" => .ok .GrpcMock
  | "openweather" => .ok .OpenWeather
  | "ow" => .ok .OpenWeather
  | "weatherapi" => .ok .WeatherApi
  | "wa" => .ok .WeatherApi
  | _ => .error (unknownProviderMsg s)

example : Provider.tryFrom "OW" = .ok Provider.OpenWeather := by decide
example : Provider.tryFrom "WeatherApi" = .ok Provider.WeatherApi := by decide
example : Provider.tryFrom "unknown" = .error (unknownProviderMsg "unknown") := by decide

/-! ## Settings (`weather-cli/src/models/config.rs`) -/

/-- Per-provider configuration: `ProviderConfig { key: Option<String> }`. -/
structure ProviderConfig where
  key : Option String
deriving DecidableEq, Repr

/-- The persisted `Settings` document. The two `BTreeMap`s are association
lists kept sorted by key. -/
structure Settings where
  addresses : List (String × String)
  default_alias : Option String
  providers : List (String × ProviderConfig)
  default_provider : Option String
deriving DecidableEq, Repr

/-- Key lookup in an association list (`BTreeMap::get` on a sorted,
duplicate-free entry list). -/
def mapGet {α : Type} : List (String × α) → String → Option α
  | [], _ => none
  | (k', v) :: rest, k => if k = k' then some v else mapGet rest k

/-- `BTreeMap::insert` on the sorted entry list: replace an existing binding
or insert at the ordered position. -/
def insertSorted {α : Type} : List (String × α) → String → α → List (String × α)
  | [], k, v => [(k, v)]
  | (k', v') :: rest, k, v =>
    if k < k' then (k, v) :: (k', v') :: rest
    else if k = k' then (k, v) :: rest
    else (k', v') :: insertSorted rest k v

/-- `BTreeMap::remove` on the entry list: drop the binding of `k` if present,
returning the removed value as well. -/
def btreeRemove {α : Type} : List (String × α) → String → List (String × α) × Option α
  | [], _ => ([], none)
  | (k', v) :: rest, k =>
    if k = k' then (rest, some v)
    else
      let r := btreeRemove rest k
      ((k', v) :: r.1, r.2)

/-- Well-formedness of the association-list model of a `BTreeMap`: keys
strictly increasing (hence duplicate-free). -/
def StrMapSorted {α : Type} (m : List (String × α)) : Prop :=
  List.Pairwise (fun x y => x.1 < y.1) m

/-- `Settings::default()`: empty addresses, no defaults, and the two mock
provider entries with their sentinel keys ("grpc" sorts before "mock"). -/
def Settings.defaultSettings : Settings :=
  { addresses := []
    default_alias := none
    providers := [("grpc", ⟨some "grpc-mock-key"⟩), ("mock", ⟨some "mock-key"⟩)]
    default_provider := none }

/-! ## Resolution layer (`weather-cli/src/handlers/weather.rs`) -/

/-- The `MissingCredential` error message of `resolve_provider`. -/
def missingCredentialMsg (p : Provider) : String :=
  "API key not found for provider '" ++ p.name ++ "'. Please configure it first."

/-- The `NoAddressSpecified` error message of `resolve_address`. -/
def noAddressMsg : String :=
  "No address specified and no default address alias found. Use --address <LOCATION> or set a default alias."

/-- The dangling-default-alias warning printed by `resolve_address`. -/
def danglingAliasWarning (a : String) : String :=
  "Default alias '" ++ a ++ "' is set but not found in saved aliases."

/-- `resolve_provider`: parse the explicit token if given, otherwise parse the
stored default (propagating its parse error), otherwise `Provider::Mock`;
then require a stored key unless the provider is the offline mock. -/
def resolve_provider (provider_input : Option String) (config : Settings) :
    Except String (Provider × Option String) :=
  let providerR : Except String Provider :=
    match provider_input with
    | some p => Provider.tryFrom p
    | none =>
      match config.default_provider with
      | some s => Provider.tryFrom s
      | none => .ok .Mock
  match providerR with
  | .error e => .error e
  | .ok provider =>
    let api_key := (mapGet config.providers provider.id).bind ProviderConfig.key
    if !provider.is_mock && api_key.isNone then
      .error (missingCredentialMsg provider)
    else
      .ok (provider, api_key)

/-- `resolve_address`: alias-or-literal for a supplied input, default-alias
fallback otherwise. The second component collects lines printed on the way
(the dangling-default warning). -/
def resolve_address (address_input : Option String) (config : Settings) :
    Except String String × List String :=
  match address_input with
  | some input =>
    match mapGet config.addresses input with
    | some mapped => (.ok mapped, [])
    | none => (.ok input, [])
  | none =>
    match config.default_alias with
    | some default_alias =>
      match mapGet config.addresses default_alias with
      | some mapped => (.ok mapped, [])
      | none => (.error noAddressMsg, [danglingAliasWarning default_alias])
    | none => (.error noAddressMsg, [])

/-- The data of the single outbound provider call `get_weather` would issue:
the network boundary of the embedding. -/
structure FetchCall where
  provider : Provider
  api_key : Option String
  address : String
  date : Option String
deriving DecidableEq, Repr

/-- `get_weather` up to the network boundary: resolve the provider, then the
address, and return the fetch that would be issued. An error from either
resolution step aborts before any `FetchCall` is produced. -/
def get_weather_request (address date provider : Option String) (config : Settings) :
    Except String FetchCall :=
  match resolve_provider provider config with
  | .error e => .error e
  | .ok (p, api_key) =>
    match (resolve_address address config).1 with
    | .error e => .error e
    | .ok addr => .ok ⟨p, api_key, addr, date⟩

example :
    resolve_provider none Settings.defaultSettings = .ok (Provider.Mock, some "mock-key") := by
  decide
example :
    resolve_provider none { Settings.defaultSettings with default_provider := some "bogus" } =
      .error (unknownProviderMsg "bogus") := by decide
example :
    get_weather_request (some "Paris") none (some "wa") Settings.defaultSettings =
      .error (missingCredentialMsg Provider.WeatherApi) := by decide

/-! ## Weather result and the two mock backends
(`weather-providers/src/models/mod.rs`, `providers/mock.rs`,
`providers/grpc_mock.rs`) -/

/-- The uniform `WeatherInfo` record every provider produces. -/
structure WeatherInfo where
  country : String
  city : String
  date : String
  temperature : Rat
  humidity : Nat
  description : Option String
deriving DecidableEq, Repr

/-- `MockProvider::get_weather`: ignores credential and address, always
succeeds with the fixed fixture and the normalized date. -/
def MockProvider.get_weather (_provider_key : Option String) (_address : String)
    (date : Option String) (today : Date) : Except String WeatherInfo :=
  .ok
    { country := "Mock Country"
      city := "Mock City"
      date := normalize_date date today
      temperature := 20
      humidity := 50
      description := some "Sunny (Mock)" }

/-- The wire response of the gRPC weather service (`weather.proto` message);
`humidity` is an `int32` on the wire. -/
structure GrpcResponse where
  country : String
  city : String
  date : String
  temperature : Rat
  humidity : Int
  description : String
deriving DecidableEq, Repr

/-- Outcome of `WeatherServiceClient::connect` followed by the RPC itself:
the connection attempt fails, or it succeeds and the call either returns a
response or an RPC error. -/
inductive GrpcConnection where
  | failed
  | connected (call : Except String GrpcResponse)

/-- The diagnostic `grpc_mock.rs` prints on its fallback path. -/
def grpcFallbackDiagnostic : String :=
  "(gRPC Mock: Server not found at 'http://[::1]:54583', returning static data)"

/-- `GrpcMockProvider::get_weather`: forward to the RPC server when reachable
(mapping the response 1:1, with the `as u8` humidity cast), and degrade to a
distinct static fixture plus a printed diagnostic when the connection fails.
The second component collects the diagnostics printed to the error stream. -/
def GrpcMockProvider.get_weather (conn : GrpcConnection) (_provider_key : Option String)
    (_address : String) (date : Option String) (today : Date) :
    Except String WeatherInfo × List String :=
  let date_normalized := normalize_date date today
  match conn with
  | .connected (.ok r) =>
    (.ok
      { country := r.country
        city := r.city
        date := r.date
        temperature := r.temperature
        humidity := (r.humidity % 256).toNat
        description := some r.description }, [])
  | .connected (.error e) => (.error ("gRPC error: " ++ e), [])
  | .failed =>
    (.ok
      { country := "gRPC Mock Country"
        city := "gRPC Mock City"
        date := date_normalized
        temperature := 42
        humidity := 88
        description := some "Rain (Mock)" }, [grpcFallbackDiagnostic])

/-! ## JSON documents and serde round-trip
(`weather-cli/src/models/config.rs`, serde derive semantics) -/

/-- A JSON value, the image of `serde_json::Value` needed by `Settings`. -/
inductive Json where
  | null
  | bool (b : Bool)
  | num (n : Int)
  | str (s : String)
  | arr (xs : List Json)
  | obj (fields : List (String × Json))

/-- Serialize a `ProviderConfig`; a `None` key is skipped
(`skip_serializing_if = "Option::is_none"`). -/
def serializeProviderConfig (pc : ProviderConfig) : Json :=
  match pc.key with
  | some k => .obj [("key", .str k)]
  | none => .obj []

/-- Serialize `Settings` with the derived field order; `None` options are
skipped, the maps keep their (sorted) entry order. -/
def serializeSettings (s : Settings) : Json :=
  .obj
    ([("addresses", .obj (s.addresses.map fun kv => (kv.1, .str kv.2)))]
      ++ (match s.default_alias with
          | some a => [("default_alias", .str a)]
          | none => [])
      ++ [("providers", .obj (s.providers.map fun kv => (kv.1, serializeProviderConfig kv.2)))]
      ++ (match s.default_provider with
          | some p => [("default_provider", .str p)]
          | none => []))

/-- Deserialize a `BTreeMap<String, String>`: visit the document entries in
order, inserting each into the sorted map; non-string values are a type
error. -/
def deserStringMap (m : List (String × String)) :
    List (String × Json) → Except String (List (String × String))
  | [] => .ok m
  | (k, .str v) :: rest => deserStringMap (insertSorted m k v) rest
  | (_, _) :: _ => .error "invalid type: expected a string"

/-- Deserialize a `ProviderConfig` from an object: a missing or null `key`
field is `None`, a string is `Some`, anything else is a type error;
duplicate `key` fields are an error, unknown fields are ignored. -/
def deserProviderConfigFields (acc : Option (Option String)) :
    List (String × Json) → Except String ProviderConfig
  | [] => .ok ⟨acc.getD none⟩
  | (name, v) :: rest =>
    if name = "key" then
      match acc with
      | some _ => .error "duplicate field key"
      | none =>
        match v with
        | .null => deserProviderConfigFields (some none) rest
        | .str s => deserProviderConfigFields (some (some s)) rest
        | _ => .error "invalid type for field key"
    else
      deserProviderConfigFields acc rest

/-- Deserialize a `ProviderConfig` value. -/
def deserProviderConfig : Json → Except String ProviderConfig
  | .obj fields => deserProviderConfigFields none fields
  | _ => .error "invalid type: expected struct ProviderConfig"

/-- Deserialize a `BTreeMap<String, ProviderConfig>`. -/
def deserProvidersMap (m : List (String × ProviderConfig)) :
    List (String × Json) → Except String (List (String × ProviderConfig))
  | [] => .ok m
  | (k, v) :: rest =>
    match deserProviderConfig v with
    | .ok pc => deserProvidersMap (insertSorted m k pc) rest
    | .error e => .error e

/-- Deserialize an `Option<String>` field value. -/
def deserOptString : Json → Except String (Option String)
  | .null => .ok none
  | .str s => .ok (some s)
  | _ => .error "invalid type: expected a string or null"

/-- Field accumulator of the derived `Settings` visitor: which fields have
been seen, with their parsed values. -/
structure SettingsAcc where
  addresses : Option (List (String × String)) := none
  default_alias : Option (Option String) := none
  providers : Option (List (String × ProviderConfig)) := none
  default_provider : Option (Option String) := none

/-- The derived `Settings` map visitor: process document fields in order,
erroring on duplicates and on ill-typed values, ignoring unknown fields. -/
def deserSettingsFields (acc : SettingsAcc) :
    List (String × Json) → Except String Settings
  | [] =>
    .ok
      { addresses := acc.addresses.getD []
        default_alias := acc.default_alias.getD none
        providers := acc.providers.getD []
        default_provider := acc.default_provider.getD none }
  | (name, v) :: rest =>
    if name = "addresses" then
      match acc.addresses with
      | some _ => .error "duplicate field addresses"
      | none =>
        match v with
        | .obj fields =>
          match deserStringMap [] fields with
          | .ok m => deserSettingsFields { acc with addresses := some m } rest
          | .error e => .error e
        | _ => .error "invalid type: expected a map"
    else if name = "default_alias" then
      match acc.default_alias with
      | some _ => .error "duplicate field default_alias"
      | none =>
        match deserOptString v with
        | .ok o => deserSettingsFields { acc with default_alias := some o } rest
        | .error e => .error e
    else if name = "providers" then
      match acc.providers with
      | some _ => .error "duplicate field providers"
      | none =>
        match v with
        | .obj fields =>
          match deserProvidersMap [] fields with
          | .ok m => deserSettingsFields { acc with providers := some m } rest
          | .error e => .error e
        | _ => .error "invalid type: expected a map"
    else if name = "default_provider" then
      match acc.default_provider with
      | some _ => .error "duplicate field default_provider"
      | none =>
        match deserOptString v with
        | .ok o => deserSettingsFields { acc with default_provider := some o } rest
        | .error e => .error e
    else
      deserSettingsFields acc rest

/-- Deserialize a `Settings` document (`serde_json::from_reader` on a parsed
value); absent fields fall back to their `serde(default)`. -/
def deserializeSettings : Json → Except String Settings
  | .obj fields => deserSettingsFields {} fields
  | _ => .error "invalid type: expected struct Settings"

/-! ## Configuration store (`weather_cli/src/common/config.rs`) -/

/-- The on-disk state of the configuration file: absent, present but not a
JSON document, or a JSON document. -/
inductive FileState where
  | missing
  | corrupt
  | content (j : Json)

/-- `load_file`: open + parse; an absent file is an I/O `NotFound` error, a
non-JSON file a parse error, and a JSON document goes through serde. -/
def load_file : FileState → Except String Settings
  | .missing => .error "I/O error: entity not found"
  | .corrupt => .error "Serialization error: invalid JSON"
  | .content j => deserializeSettings j

/-- `AppConfig::new`: load the settings, silently falling back to
`Settings::default()` on any load error (missing file, unreadable file,
parse failure). Total: opening the store never fails. -/
def AppConfig.new (fs : FileState) : Settings :=
  match load_file fs with
  | .ok s => s
  | .error _ => Settings.defaultSettings

/-- The store: in-memory settings plus the file they were loaded from /
are saved to. -/
structure ConfigStore where
  mem : Settings
  disk : FileState

/-- Result of one attempt of `save_file_atomic`: the write-tmp +
flush + rename sequence either succeeds or fails with an I/O error. -/
inductive SaveOutcome where
  | success
  | failure (e : String)

/-- `AppConfig::with_mut`: apply the mutator to the settings under the write
lock, then persist atomically. On save success the disk holds the serialized
new settings and the mutator's value is returned; on save failure the error
is returned while the in-memory settings keep the mutator's changes and the
disk keeps its previous content (atomic replace failed). -/
def with_mut {R : Type} (st : ConfigStore) (outcome : SaveOutcome)
    (f : Settings → Settings × R) : Except String R × ConfigStore :=
  let fr := f st.mem
  match outcome with
  | .success => (.ok fr.2, { mem := fr.1, disk := .content (serializeSettings fr.1) })
  | .failure e => (.error e, { mem := fr.1, disk := st.disk })

/-! ## Alias removal (`weather-cli/src/handlers/alias.rs`) -/

/-- The closure `remove_alias` passes to `with_mut`: remove the alias from
`addresses`, recording whether it existed, and clear `default_alias` when it
named the removed alias. -/
def removeAliasMutator (aliasName : String) (s : Settings) : Settings × (Bool × Bool) :=
  let r := btreeRemove s.addresses aliasName
  let existed := r.2.isSome
  if s.default_alias = some aliasName then
    ({ s with addresses := r.1, default_alias := none }, (existed, true))
  else
    ({ s with addresses := r.1 }, (existed, false))

/-- What one `remove_alias` call produced: its `Result`, the lines printed to
standard output, and the store afterwards. -/
structure RemoveAliasOutput where
  result : Except String Unit
  messages : List String
  store : ConfigStore

/-- `remove_alias`: run the mutator through `with_mut`; report removal (and
the default-alias reset) or not-found, which is not an error. A save failure
propagates before anything is printed. -/
def remove_alias (aliasName : String) (st : ConfigStore) (outcome : SaveOutcome) :
    RemoveAliasOutput :=
  match with_mut st outcome (removeAliasMutator aliasName) with
  | (.ok flags, st') =>
    if flags.1 then
      { result := .ok ()
        messages :=
          ["Alias '" ++ aliasName ++ "' removed."]
            ++ (if flags.2 then
                  ["Note: '" ++ aliasName ++ "' was the default alias. Default alias is now unset."]
                else [])
        store := st' }
    else
      { result := .ok (), messages := ["Alias '" ++ aliasName ++ "' not found."], store := st' }
  | (.error e, st') => { result := .error e, messages := [], store := st' }

/-! ## Helper lemmas on the sorted association-list maps -/

theorem mapGet_eq_none {α : Type} (m : List (String × α)) (k : String)
    (h : ∀ e ∈ m, e.1 ≠ k) : mapGet m k = none := by
  induction m with
  | nil => rfl
  | cons hd tl ih =>
    obtain ⟨k', v⟩ := hd
    have hne : k' ≠ k := h (k', v) (by simp)
    simp only [mapGet, if_neg (Ne.symm hne)]
    exact ih fun e he => h e (List.mem_cons_of_mem _ he)

theorem insertSorted_of_lt {α : Type} (m : List (String × α)) (k : String) (v : α)
    (h : ∀ e ∈ m, e.1 < k) : insertSorted m k v = m ++ [(k, v)] := by
  induction m with
  | nil => rfl
  | cons hd tl ih =>
    obtain ⟨k', v'⟩ := hd
    have hlt : k' < k := h (k', v') (by simp)
    simp only [insertSorted, if_neg (lt_asymm hlt), if_neg (ne_of_gt hlt), List.cons_append,
      List.cons.injEq, true_and]
    exact ih fun e he => h e (List.mem_cons_of_mem _ he)

theorem btreeRemove_snd {α : Type} (m : List (String × α)) (k : String) :
    (btreeRemove m k).2 = mapGet m k := by
  induction m with
  | nil => rfl
  | cons hd tl ih =>
    obtain ⟨k', v⟩ := hd
    by_cases hk : k = k' <;> simp [btreeRemove, mapGet, hk, ih]

theorem mapGet_btreeRemove_self {α : Type} (m : List (String × α)) (k : String)
    (h : StrMapSorted m) : mapGet (btreeRemove m k).1 k = none := by
  induction m with
  | nil => rfl
  | cons hd tl ih =>
    obtain ⟨k', v⟩ := hd
    unfold StrMapSorted at h
    rw [List.pairwise_cons] at h
    by_cases hk : k = k'
    · simp only [btreeRemove, if_pos hk]
      exact mapGet_eq_none tl k fun e he => by
        rw [hk]; exact ne_of_gt (h.1 e he)
    · simp only [btreeRemove, if_neg hk, mapGet, if_neg hk]
      exact ih h.2

theorem mapGet_btreeRemove_other {α : Type} (m : List (String × α)) (k b : String)
    (hne : b ≠ k) : mapGet (btreeRemove m k).1 b = mapGet m b := by
  induction m with
  | nil => rfl
  | cons hd tl ih =>
    obtain ⟨k', v⟩ := hd
    by_cases hk : k = k'
    · subst hk
      simp [btreeRemove, mapGet, hne]
    · by_cases hb : b = k' <;> simp [btreeRemove, mapGet, hk, hb, ih]

/-! ## Helper lemmas for the serde round-trip -/

theorem deserStringMap_of_sorted (l : List (String × String)) :
    ∀ m, StrMapSorted (m ++ l) →
      deserStringMap m (l.map fun kv => (kv.1, Json.str kv.2)) = .ok (m ++ l) := by
  induction l with
  | nil => intro m _; simp [deserStringMap]
  | cons hd tl ih =>
    intro m h
    obtain ⟨k, v⟩ := hd
    unfold StrMapSorted at h
    have hlt : ∀ e ∈ m, e.1 < k :=
      fun e he => (List.pairwise_append.mp h).2.2 e he (k, v) (by simp)
    simp only [List.map_cons, deserStringMap]
    rw [insertSorted_of_lt m k v hlt,
      ih (m ++ [(k, v)]) (by simpa [StrMapSorted, List.append_assoc] using h)]
    simp

theorem deserProviderConfig_roundtrip (pc : ProviderConfig) :
    deserProviderConfig (serializeProviderConfig pc) = .ok pc := by
  obtain ⟨key⟩ := pc
  cases key <;> rfl

theorem deserProvidersMap_of_sorted (l : List (String × ProviderConfig)) :
    ∀ m, StrMapSorted (m ++ l) →
      deserProvidersMap m (l.map fun kv => (kv.1, serializeProviderConfig kv.2)) = .ok (m ++ l) := by
  induction l with
  | nil => intro m _; simp [deserProvidersMap]
  | cons hd tl ih =>
    intro m h
    obtain ⟨k, pc⟩ := hd
    unfold StrMapSorted at h
    have hlt : ∀ e ∈ m, e.1 < k :=
      fun e he => (List.pairwise_append.mp h).2.2 e he (k, pc) (by simp)
    simp only [List.map_cons, deserProvidersMap, deserProviderConfig_roundtrip]
    rw [insertSorted_of_lt m k pc hlt,
      ih (m ++ [(k, pc)]) (by simpa [StrMapSorted, List.append_assoc] using h)]
    simp

theorem deserializeSettings_roundtrip (s : Settings)
    (hA : StrMapSorted s.addresses) (hP : StrMapSorted s.providers) :
    deserializeSettings (serializeSettings s) = .ok s := by
  obtain ⟨addrs, da, provs, dp⟩ := s
  have hA' := deserStringMap_of_sorted addrs [] (by simpa using hA)
  have hP' := deserProvidersMap_of_sorted provs [] (by simpa using hP)
  simp only [List.nil_append] at hA' hP'
  cases da <;> cases dp <;>
    simp [serializeSettings, deserializeSettings, deserSettingsFields, deserOptString, hA', hP']

/-! ## Claim theorems -/

/-- C1 (counterexample): with no explicit provider token and a stored
`default_provider` that parses as none of the four known providers,
`resolve_provider` returns the `UnknownProvider` error instead of falling
back to the Offline Mock: the claim's fallback clause is false on the code. -/
theorem resolve_provider_unparseable_default_errors :
    resolve_provider none { Settings.defaultSettings with default_provider := some "bogus" } =
      .error (unknownProviderMsg "bogus") := by
  decide

/-- C1 (amended): with no explicit provider token, an unset
`default_provider` resolves to the Offline Mock without requiring any
credential, while a stored `default_provider` that fails to parse propagates
the parse error (no fallback to the Offline Mock). -/
theorem resolve_provider_default_resolution (cfg : Settings) (s e : String) :
    (cfg.default_provider = none →
      resolve_provider none cfg =
        .ok (Provider.Mock, (mapGet cfg.providers "mock").bind ProviderConfig.key))
    ∧ (cfg.default_provider = some s → Provider.tryFrom s = .error e →
      resolve_provider none cfg = .error e) := by
  constructor
  · intro h
    simp [resolve_provider, h, Provider.is_mock, Provider.id]
  · intro h1 h2
    simp [resolve_provider, h1, h2]

/-- C1 (witness): the amended theorem applied at the default settings (unset
default provider) and at a concrete unparseable default provider. -/
theorem resolve_provider_default_resolution_witness :
    resolve_provider none Settings.defaultSettings = .ok (Provider.Mock, some "mock-key")
    ∧ resolve_provider none { Settings.defaultSettings with default_provider := some "nope" } =
      .error (unknownProviderMsg "nope") :=
  ⟨(resolve_provider_default_resolution Settings.defaultSettings "" "").1 rfl,
    (resolve_provider_default_resolution
      { Settings.defaultSettings with default_provider := some "nope" }
      "nope" (unknownProviderMsg "nope")).2 rfl (by decide)⟩

/-- C2: `with_mut` applies the mutator to the in-memory settings, persists the
serialized result, and returns the mutator's value on save success; on save
failure the error is surfaced while the in-memory settings keep the mutator's
changes (no rollback) and the disk keeps its old content, so memory and disk
can diverge (witnessed by the final concrete conjunct). -/
theorem with_mut_spec {R : Type} (st : ConfigStore) (f : Settings → Settings × R) (e : String) :
    with_mut st .success f =
      (.ok (f st.mem).2,
        { mem := (f st.mem).1, disk := .content (serializeSettings (f st.mem).1) })
    ∧ with_mut st (.failure e) f = (.error e, { mem := (f st.mem).1, disk := st.disk })
    ∧ (with_mut
          ⟨Settings.defaultSettings, .content (serializeSettings Settings.defaultSettings)⟩
          (.failure "disk full")
          (fun s => ({ s with default_alias := some "x" }, ()))).2.mem ≠
        AppConfig.new
          (with_mut
            ⟨Settings.defaultSettings, .content (serializeSettings Settings.defaultSettings)⟩
            (.failure "disk full")
            (fun s => ({ s with default_alias := some "x" }, ()))).2.disk := by
  refine ⟨rfl, rfl, ?_⟩
  decide

/-- C3: opening the configuration store is total and never fails: a missing
file and a corrupt (non-JSON) file both yield `Settings::default()`, a JSON
document that fails to deserialize as `Settings` also yields
`Settings::default()`, and the default settings hold the "mock" and "grpc"
provider entries with their sentinel keys. -/
theorem appConfig_new_never_fails (j : Json) (e : String) :
    AppConfig.new .missing = Settings.defaultSettings
    ∧ AppConfig.new .corrupt = Settings.defaultSettings
    ∧ (deserializeSettings j = .error e → AppConfig.new (.content j) = Settings.defaultSettings)
    ∧ mapGet Settings.defaultSettings.providers "mock" = some ⟨some "mock-key"⟩
    ∧ mapGet Settings.defaultSettings.providers "grpc" = some ⟨some "grpc-mock-key"⟩ := by
  refine ⟨rfl, rfl, ?_, by decide, by decide⟩
  intro h
  simp [AppConfig.new, load_file, h]

/-- C3 (witness): a JSON document that is not an object fails to deserialize,
and the store then opens with the default settings. -/
theorem appConfig_new_never_fails_witness :
    AppConfig.new (.content (Json.num 3)) = Settings.defaultSettings :=
  (appConfig_new_never_fails (Json.num 3) "invalid type: expected struct Settings").2.2.1 rfl

/-- C4: the date normalizer is total and never fails: `normalize(None)` is
today's date in ISO form; the candidate formats are tried in exactly the
order ISO, dotted day-first, US slash, hyphenated day-first, written month,
slash year-first, the first success winning; an unparseable string falls back
to `normalize(None)`; and one concrete same-date input per format normalizes
to the same ISO rendering. -/
theorem normalize_date_spec (s : String) (t : Date) (d : Date) :
    normalize_date none t = t.toIso
    ∧ parse_date_with_unknown_format s =
        ((parseFromStr s fmtIso).orElse fun _ =>
          ((parseFromStr s fmtDotted).orElse fun _ =>
            ((parseFromStr s fmtUsSlash).orElse fun _ =>
              ((parseFromStr s fmtHyphen).orElse fun _ =>
                ((parseFromStr s fmtWrittenMonth).orElse fun _ =>
                  parseFromStr s fmtSlashYearFirst)))))
    ∧ (parse_date_with_unknown_format s = none →
        normalize_date (some s) t = normalize_date none t)
    ∧ (parse_date_with_unknown_format s = some d → normalize_date (some s) t = d.toIso)
    ∧ normalize_date (some "2023-10-05") t = "2023-10-05"
    ∧ normalize_date (some "05.10.2023") t = "2023-10-05"
    ∧ normalize_date (some "10/05/2023") t = "2023-10-05"
    ∧ normalize_date (some "05-10-2023") t = "2023-10-05"
    ∧ normalize_date (some "5 Oct 2023") t = "2023-10-05"
    ∧ normalize_date (some "2023/10/05") t = "2023-10-05" := by
  refine ⟨rfl, ?_, ?_, ?_, ?_, ?_, ?_, ?_, ?_, ?_⟩
  · simp only [parse_date_with_unknown_format, POSSIBLE_FORMATS, List.findSome?]
    cases parseFromStr s fmtIso <;>
      cases parseFromStr s fmtDotted <;>
        cases parseFromStr s fmtUsSlash <;>
          cases parseFromStr s fmtHyphen <;>
            cases parseFromStr s fmtWrittenMonth <;>
              cases parseFromStr s fmtSlashYearFirst <;>
                simp [Option.orElse]
  · intro h
    simp [normalize_date, h]
  · intro h
    simp [normalize_date, h]
  all_goals
    first
    | (have h : parse_date_with_unknown_format "2023-10-05" = some ⟨2023, 10, 5⟩ := by decide
       simp [normalize_date, h]; decide)
    | (have h : parse_date_with_unknown_format "05.10.2023" = some ⟨2023, 10, 5⟩ := by decide
       simp [normalize_date, h]; decide)
    | (have h : parse_date_with_unknown_format "10/05/2023" = some ⟨2023, 10, 5⟩ := by decide
       simp [normalize_date, h]; decide)
    | (have h : parse_date_with_unknown_format "05-10-2023" = some ⟨2023, 10, 5⟩ := by decide
       simp [normalize_date, h]; decide)
    | (have h : parse_date_with_unknown_format "5 Oct 2023" = some ⟨2023, 10, 5⟩ := by decide
       simp [normalize_date, h]; decide)
    | (have h : parse_date_with_unknown_format "2023/10/05" = some ⟨2023, 10, 5⟩ := by decide
       simp [normalize_date, h]; decide)

/-- C4 (witness): the fallback clause applied at the unparseable string
`"not-a-date"` and the first-match clause applied at a dotted-format date. -/
theorem normalize_date_spec_witness :
    normalize_date (some "not-a-date") ⟨2024, 2, 29⟩ = normalize_date none ⟨2024, 2, 29⟩
    ∧ normalize_date (some "31.12.2020") ⟨2024, 2, 29⟩ = Date.toIso ⟨2020, 12, 31⟩ :=
  ⟨(normalize_date_spec "not-a-date" ⟨2024, 2, 29⟩ ⟨1, 1, 1⟩).2.2.1 (by decide),
    (normalize_date_spec "31.12.2020" ⟨2024, 2, 29⟩ ⟨2020, 12, 31⟩).2.2.2.1 (by decide)⟩

/-- C5: whenever the resolved provider is not the Offline Mock and the
`providers` map yields no key for its id, the weather request fails with the
`MissingCredential` error while still inside resolution — no `FetchCall`
(the network boundary) is ever produced. Both resolution paths are covered:
an explicit provider token and the stored default provider. -/
theorem missing_credential_before_fetch (cfg : Settings) (s : String) (p : Provider)
    (addr date : Option String) :
    (Provider.tryFrom s = .ok p → p.is_mock = false →
      (mapGet cfg.providers p.id).bind ProviderConfig.key = none →
      get_weather_request addr date (some s) cfg = .error (missingCredentialMsg p))
    ∧ (cfg.default_provider = some s → Provider.tryFrom s = .ok p → p.is_mock = false →
      (mapGet cfg.providers p.id).bind ProviderConfig.key = none →
      get_weather_request addr date none cfg = .error (missingCredentialMsg p)) := by
  constructor
  · intro h1 h2 h3
    simp [get_weather_request, resolve_provider, h1, h2, h3]
  · intro h0 h1 h2 h3
    simp [get_weather_request, resolve_provider, h0, h1, h2, h3]

/-- C5 (witness): explicitly selecting the Single-call provider (id "wa")
against the default settings, which store no key for it, fails with
`MissingCredential`. -/
theorem missing_credential_before_fetch_witness :
    get_weather_request (some "Kyiv") (some "2023-10-05") (some "wa") Settings.defaultSettings =
      .error (missingCredentialMsg Provider.WeatherApi) :=
  (missing_credential_before_fetch Settings.defaultSettings "wa" Provider.WeatherApi
    (some "Kyiv") (some "2023-10-05")).1 (by decide) rfl (by decide)

/-- C6: address resolution with a supplied input never fails — an alias key
resolves to its mapped address, any other input passes through literally;
with no input, a set-and-present default alias resolves to its mapped
address, a set-but-dangling default alias prints a warning and then fails,
and an unset default alias fails with `NoAddressSpecified`. -/
theorem resolve_address_spec (cfg : Settings) (inp a : String) :
    (mapGet cfg.addresses inp = some a → resolve_address (some inp) cfg = (.ok a, []))
    ∧ (mapGet cfg.addresses inp = none → resolve_address (some inp) cfg = (.ok inp, []))
    ∧ (cfg.default_alias = some inp → mapGet cfg.addresses inp = some a →
      resolve_address none cfg = (.ok a, []))
    ∧ (cfg.default_alias = some inp → mapGet cfg.addresses inp = none →
      resolve_address none cfg = (.error noAddressMsg, [danglingAliasWarning inp]))
    ∧ (cfg.default_alias = none → resolve_address none cfg = (.error noAddressMsg, [])) := by
  refine ⟨?_, ?_, ?_, ?_, ?_⟩
  · intro h; simp [resolve_address, h]
  · intro h; simp [resolve_address, h]
  · intro h1 h2; simp [resolve_address, h1, h2]
  · intro h1 h2; simp [resolve_address, h1, h2]
  · intro h; simp [resolve_address, h]

/-- C6 (witness): with `addresses = {"home": "London, UK"}`, input `"home"`
resolves to `"London, UK"` and input `"Unknown Place"` passes through
unchanged. -/
theorem resolve_address_spec_witness :
    resolve_address (some "home")
        { addresses := [("home", "London, UK")], default_alias := none,
          providers := [], default_provider := none } =
      (.ok "London, UK", [])
    ∧ resolve_address (some "Unknown Place")
        { addresses := [("home", "London, UK")], default_alias := none,
          providers := [], default_provider := none } =
      (.ok "Unknown Place", []) :=
  ⟨(resolve_address_spec
      { addresses := [("home", "London, UK")], default_alias := none,
        providers := [], default_provider := none } "home" "London, UK").1 (by decide),
    (resolve_address_spec
      { addresses := [("home", "London, UK")], default_alias := none,
        providers := [], default_provider := none } "Unknown Place" "").2.1 (by decide)⟩

/-- C7: on connection failure the RPC Mock provider returns `Ok` with its
static fixture (date normalized from the input) and prints the diagnostic;
the connection failure is never propagated as an error, and every field of
the fixture other than the date differs from the Offline Mock's fixture. -/
theorem grpc_mock_connection_failure_fallback (key : Option String) (addr : String)
    (date : Option String) (today : Date) :
    GrpcMockProvider.get_weather .failed key addr date today =
      (.ok
        { country := "gRPC Mock Country", city := "gRPC Mock City",
          date := normalize_date date today, temperature := 42, humidity := 88,
          description := some "Rain (Mock)" },
        [grpcFallbackDiagnostic])
    ∧ (∀ w m : WeatherInfo,
        (GrpcMockProvider.get_weather .failed key addr date today).1 = .ok w →
        MockProvider.get_weather key addr date today = .ok m →
        w.country ≠ m.country ∧ w.city ≠ m.city ∧ w.temperature ≠ m.temperature ∧
          w.humidity ≠ m.humidity ∧ w.description ≠ m.description ∧
          w.date = normalize_date date today) := by
  constructor
  · rfl
  · intro w m hw hm
    have hw' : w =
        { country := "gRPC Mock Country", city := "gRPC Mock City",
          date := normalize_date date today, temperature := 42, humidity := 88,
          description := some "Rain (Mock)" } := by
      simpa [GrpcMockProvider.get_weather] using hw.symm
    have hm' : m =
        { country := "Mock Country", city := "Mock City",
          date := normalize_date date today, temperature := 20, humidity := 50,
          description := some "Sunny (Mock)" } := by
      simpa [MockProvider.get_weather] using hm.symm
    subst hw' hm'
    refine ⟨?_, ?_, ?_, ?_, ?_, ?_⟩ <;> dsimp only <;> first | rfl | decide

/-- C7 (witness): the distinctness clause applied at concrete inputs, with
both fixture records supplied explicitly. -/
theorem grpc_mock_connection_failure_fallback_witness :
    ({ country := "gRPC Mock Country", city := "gRPC Mock City", date := "2023-10-05",
       temperature := 42, humidity := 88,
       description := some "Rain (Mock)" } : WeatherInfo).country ≠
      ({ country := "Mock Country", city := "Mock City", date := "2023-10-05",
         temperature := 20, humidity := 50,
         description := some "Sunny (Mock)" } : WeatherInfo).country := by
  have hw : (GrpcMockProvider.get_weather .failed none "Nowhere" (some "10/5/2023")
      ⟨1999, 1, 1⟩).1 =
      .ok { country := "gRPC Mock Country", city := "gRPC Mock City", date := "2023-10-05",
            temperature := 42, humidity := 88, description := some "Rain (Mock)" } := by
    decide
  have hm : MockProvider.get_weather none "Nowhere" (some "10/5/2023") ⟨1999, 1, 1⟩ =
      .ok { country := "Mock Country", city := "Mock City", date := "2023-10-05",
            temperature := 20, humidity := 50, description := some "Sunny (Mock)" } := by
    decide
  exact ((grpc_mock_connection_failure_fallback none "Nowhere" (some "10/5/2023")
    ⟨1999, 1, 1⟩).2 _ _ hw hm).1

/-- C8: round-trip law — for every well-formed `Settings` value (the two maps
sorted, the `BTreeMap` invariant), serializing it and reopening the store
from the resulting file yields the same `Settings`; deserialization inverts
serialization exactly; and a document with every field absent deserializes to
the empty settings (empty maps, `None` options), not an error. -/
theorem settings_roundtrip (s : Settings)
    (hA : StrMapSorted s.addresses) (hP : StrMapSorted s.providers) :
    deserializeSettings (serializeSettings s) = .ok s
    ∧ AppConfig.new (.content (serializeSettings s)) = s
    ∧ deserializeSettings (.obj []) =
      .ok { addresses := [], default_alias := none, providers := [], default_provider := none } := by
  have h := deserializeSettings_roundtrip s hA hP
  exact ⟨h, by simp [AppConfig.new, load_file, h], rfl⟩

/-- C8 (witness): the round trip at a concrete fully-populated settings
value. -/
theorem settings_roundtrip_witness :
    AppConfig.new
        (.content
          (serializeSettings
            { addresses := [("home", "London, UK"), ("work", "Berlin")],
              default_alias := some "home",
              providers := [("grpc", ⟨some "grpc-mock-key"⟩), ("ow", ⟨some "12345"⟩)],
              default_provider := some "ow" })) =
      { addresses := [("home", "London, UK"), ("work", "Berlin")],
        default_alias := some "home",
        providers := [("grpc", ⟨some "grpc-mock-key"⟩), ("ow", ⟨some "12345"⟩)],
        default_provider := some "ow" } :=
  (settings_roundtrip
    { addresses := [("home", "London, UK"), ("work", "Berlin")],
      default_alias := some "home",
      providers := [("grpc", ⟨some "grpc-mock-key"⟩), ("ow", ⟨some "12345"⟩)],
      default_provider := some "ow" }
    (by simp [StrMapSorted]; decide) (by simp [StrMapSorted]; decide)).2.1

/-- C9: the Offline Mock provider is total and deterministic: for every
credential, address and date it returns `Ok` with the fixed fixture and the
normalized input date; in particular with address "Nowhere" and date
"10/5/2023" the date field is "2023-10-05" and the rest is the fixture. -/
theorem mock_provider_deterministic (key : Option String) (addr : String)
    (date : Option String) (today : Date) :
    MockProvider.get_weather key addr date today =
      .ok
        { country := "Mock Country", city := "Mock City",
          date := normalize_date date today, temperature := 20, humidity := 50,
          description := some "Sunny (Mock)" }
    ∧ MockProvider.get_weather key "Nowhere" (some "10/5/2023") today =
      .ok
        { country := "Mock Country", city := "Mock City", date := "2023-10-05",
          temperature := 20, humidity := 50, description := some "Sunny (Mock)" } := by
  have hp : parse_date_with_unknown_format "10/5/2023" = some ⟨2023, 10, 5⟩ := by decide
  have h : normalize_date (some "10/5/2023") today = "2023-10-05" := by
    simp only [normalize_date, Option.some_bind, hp, Option.getD_some]
    decide
  constructor
  · rfl
  · simp only [MockProvider.get_weather, h]

/-- C10: removing an alias removes at most that entry from `addresses`,
clears `default_alias` exactly when it named the removed alias (so the
default can never be left dangling at it), leaves `providers` and
`default_provider` untouched, and completes with `Ok` — reporting not-found
instead of erroring — even when the alias was absent. -/
theorem remove_alias_spec (st : ConfigStore) (a b : String)
    (hS : StrMapSorted st.mem.addresses) :
    (remove_alias a st .success).result = .ok ()
    ∧ (remove_alias a st .success).store.mem.providers = st.mem.providers
    ∧ (remove_alias a st .success).store.mem.default_provider = st.mem.default_provider
    ∧ (remove_alias a st .success).store.mem.addresses = (btreeRemove st.mem.addresses a).1
    ∧ mapGet (remove_alias a st .success).store.mem.addresses a = none
    ∧ (b ≠ a →
      mapGet (remove_alias a st .success).store.mem.addresses b = mapGet st.mem.addresses b)
    ∧ (remove_alias a st .success).store.mem.default_alias =
      (if st.mem.default_alias = some a then none else st.mem.default_alias)
    ∧ (remove_alias a st .success).store.mem.default_alias ≠ some a
    ∧ (mapGet st.mem.addresses a = none →
      (remove_alias a st .success).messages = ["Alias '" ++ a ++ "' not found."]) := by
  have hmem : (remove_alias a st .success).store.mem = (removeAliasMutator a st.mem).1 := by
    simp only [remove_alias, with_mut, removeAliasMutator]
    by_cases h : st.mem.default_alias = some a <;>
      by_cases he : (btreeRemove st.mem.addresses a).2.isSome <;> simp [h, he]
  refine ⟨?_, ?_, ?_, ?_, ?_, ?_, ?_, ?_, ?_⟩
  · simp only [remove_alias, with_mut]
    by_cases he : (removeAliasMutator a st.mem).2.1 <;> simp [he]
  · rw [hmem]
    simp only [removeAliasMutator]
    by_cases h : st.mem.default_alias = some a <;> simp [h]
  · rw [hmem]
    simp only [removeAliasMutator]
    by_cases h : st.mem.default_alias = some a <;> simp [h]
  · rw [hmem]
    simp only [removeAliasMutator]
    by_cases h : st.mem.default_alias = some a <;> simp [h]
  · rw [hmem]
    simp only [removeAliasMutator]
    by_cases h : st.mem.default_alias = some a <;>
      simp [h, mapGet_btreeRemove_self st.mem.addresses a hS]
  · intro hb
    rw [hmem]
    simp only [removeAliasMutator]
    by_cases h : st.mem.default_alias = some a <;>
      simp [h, mapGet_btreeRemove_other st.mem.addresses a b hb]
  · rw [hmem]
    simp only [removeAliasMutator]
    by_cases h : st.mem.default_alias = some a <;> simp [h]
  · rw [hmem]
    simp only [removeAliasMutator]
    by_cases h : st.mem.default_alias = some a <;> simp [h]
  · intro hnone
    have he : (btreeRemove st.mem.addresses a).2.isSome = false := by
      rw [btreeRemove_snd, hnone]; rfl
    simp only [remove_alias, with_mut, removeAliasMutator]
    by_cases h : st.mem.default_alias = some a <;> simp [h, he]

/-- C10 (witness): removing the alias "home", which is also the default
alias, from a concrete store: the call succeeds, the entry is gone, the other
entry survives, and the default alias is cleared rather than left dangling. -/
theorem remove_alias_spec_witness :
    (remove_alias "home"
        ⟨{ addresses := [("home", "London, UK"), ("work", "Berlin")],
           default_alias := some "home", providers := [], default_provider := none },
          .missing⟩ .success).result = .ok ()
    ∧ mapGet
        (remove_alias "home"
          ⟨{ addresses := [("home", "London, UK"), ("work", "Berlin")],
             default_alias := some "home", providers := [], default_provider := none },
            .missing⟩ .success).store.mem.addresses "home" = none
    ∧ mapGet
        (remove_alias "home"
          ⟨{ addresses := [("home", "London, UK"), ("work", "Berlin")],
             default_alias := some "home", providers := [], default_provider := none },
            .missing⟩ .success).store.mem.addresses "work" = some "Berlin"
    ∧ (remove_alias "home"
        ⟨{ addresses := [("home", "London, UK"), ("work", "Berlin")],
           default_alias := some "home", providers := [], default_provider := none },
          .missing⟩ .success).store.mem.default_alias ≠ some "home" := by
  have h := remove_alias_spec
    ⟨{ addresses := [("home", "London, UK"), ("work", "Berlin")],
       default_alias := some "home", providers := [], default_provider := none },
      .missing⟩ "home" "work" (by simp [StrMapSorted]; decide)
  refine ⟨h.1, h.2.2.2.2.1, ?_, h.2.2.2.2.2.2.2.1⟩
  have hw := h.2.2.2.2.2.1 (by decide)
  rw [hw]
  decide
